import Mathlib

/-!
# go-mysql-api: the five product handlers

A shallow embedding of `main.go`.  The global `db` handle becomes an explicit
`Driver` working on a storage state; `http.ResponseWriter` becomes the
`Response` a handler leaves behind; every `database/sql` call a handler makes
is recorded, in order, in the `calls` field of its `Outcome`.
-/

namespace GoMysqlApi

/-! ## Data model -/

/-- A finite `float64`, named by its IEEE-754 bit pattern.  The handlers only
carry prices from the request to the statement and from a row to the
response; no arithmetic is done on them. -/
structure Float64 where
  bits : Nat
deriving DecidableEq, Repr

/-- The `Product` struct of `main.go`. -/
structure Product where
  ID : Int
  Name : String
  Price : Float64
  Description : String
deriving DecidableEq, Repr

/-- A Go `error` value as the handlers see it: the sentinel `sql.ErrNoRows`
(compared by identity in `getProduct`) or any other error, known by its
text. -/
inductive GoError where
  | ErrNoRows
  | other (text : String)
deriving DecidableEq, Repr

/-- The method `err.Error()`. -/
def GoError.Error : GoError → String
  | .ErrNoRows => "sql: no rows in result set"
  | .other text => text

/-- A Go value that is either a result or an `error`. -/
inductive Res (α : Type) where
  | ok (val : α)
  | fail (err : GoError)
deriving DecidableEq, Repr

/-! ## strconv.Atoi -/

/-- The value of one decimal digit, `ch - 48` when that is at most 9. -/
def digitVal (c : Char) : Option Nat :=
  if 48 ≤ c.toNat ∧ c.toNat ≤ 57 then some (c.toNat - 48) else none

/-- The digit loop of `strconv`: `n = n*10 + d` over the bytes, failing on the
first byte that is not a decimal digit. -/
def parseDigits : List Char → Nat → Option Nat
  | [], n => some n
  | c :: cs, n =>
    match digitVal c with
    | none => none
    | some d => parseDigits cs (n * 10 + d)

/-- The unsigned part of `Atoi`: at least one byte, all of them digits. -/
def parseUnsigned (ds : List Char) : Option Nat :=
  match ds with
  | [] => none
  | _ :: _ => parseDigits ds 0

/-- Go's `strconv.Atoi` for a 64-bit `int`: an optional sign, then one or more
decimal digits, the value within `[-2^63, 2^63 - 1]`.  The result is `none`
where Go returns a non-nil `*NumError` (bad syntax or out of range): every
caller in `main.go` only tests `err != nil`. -/
def Atoi (s : String) : Option Int :=
  match s.toList with
  | [] => none
  | c :: cs =>
    let neg := decide (c = '-')
    let ds := if c = '-' ∨ c = '+' then cs else c :: cs
    match parseUnsigned ds with
    | none => none
    | some n =>
      if neg then
        if n ≤ 2 ^ 63 then some (-(n : Int)) else none
      else
        if n < 2 ^ 63 then some (n : Int) else none

/-! ## database/sql -/

/-- The five statement texts of `main.go`. -/
inductive Sql where
  | selectAll
  | selectById
  | insertRow
  | updateById
  | deleteById
deriving DecidableEq, Repr

/-- The SQL text each handler passes to `db`. -/
def Sql.text : Sql → String
  | .selectAll => "SELECT id, name, price, description FROM products"
  | .selectById => "SELECT id, name, price, description FROM products WHERE id = ?"
  | .insertRow => "INSERT INTO products (name, price, description) VALUES (?, ?, ?)"
  | .updateById => "UPDATE products SET name = ?, price = ?, description = ? WHERE id = ?"
  | .deleteById => "DELETE FROM products WHERE id = ?"

/-- An argument bound to a `?` placeholder. -/
inductive SqlArg where
  | int (i : Int)
  | str (s : String)
  | float (f : Float64)
deriving DecidableEq, Repr

/-- A parameterised statement: text and bound arguments, in order. -/
structure Stmt where
  sql : Sql
  args : List SqlArg
deriving DecidableEq, Repr

/-- One call on the `db` handle. -/
inductive Call where
  | Query (stmt : Stmt)
  | QueryRow (stmt : Stmt)
  | Exec (stmt : Stmt)
deriving DecidableEq, Repr

/-- What `rows.Scan(&product.ID, &product.Name, &product.Price,
&product.Description)` yields on one delivered row. -/
inductive Scanned where
  | row (p : Product)
  | scanError (err : GoError)
deriving DecidableEq, Repr

/-- A `*sql.Rows` cursor: the rows `rows.Next()` delivers before it returns
false, and the value of `rows.Err()` afterwards. -/
structure Rows where
  items : List Scanned
  Err : Option GoError
deriving DecidableEq, Repr

/-- A `sql.Result`: the two `(int64, error)` pairs of `LastInsertId()` and
`RowsAffected()`. -/
structure Result where
  LastInsertId : Int × Option GoError
  RowsAffected : Int × Option GoError
deriving DecidableEq, Repr

/-- The storage behind the `db` handle, over a state `σ`. `QueryRow` stands
for `db.QueryRow(...).Scan(...)` with the four product destinations. -/
structure Driver (σ : Type) where
  Query : Stmt → σ → Res Rows × σ
  QueryRow : Stmt → σ → Res Product × σ
  Exec : Stmt → σ → Res Result × σ

/-! ## net/http and encoding/json -/

/-- A Go slice of products: `nil`, or backed by an array. -/
inductive GoSlice where
  | nilSlice
  | elems (xs : List Product)
deriving DecidableEq, Repr

/-- The built-in `append(s, p)`. -/
def GoSlice.append : GoSlice → Product → GoSlice
  | .nilSlice, p => .elems [p]
  | .elems xs, p => .elems (xs ++ [p])

/-- The JSON document `json.NewEncoder(w).Encode(v)` writes. -/
inductive JsonDoc where
  | null
  | array (ps : List Product)
  | object (p : Product)
deriving DecidableEq, Repr

/-- The encoding of a slice: `null` for a nil slice, an array otherwise. -/
def encodeSlice : GoSlice → JsonDoc
  | .nilSlice => .null
  | .elems xs => .array xs

/-- The body written to the `http.ResponseWriter`. -/
inductive Body where
  | empty
  | text (line : String)
  | json (doc : JsonDoc)
deriving DecidableEq, Repr

/-- What the client receives. -/
structure Response where
  status : Nat
  contentType : Option String
  body : Body
deriving DecidableEq, Repr

def StatusOK : Nat := 200
def StatusNoContent : Nat := 204
def StatusBadRequest : Nat := 400
def StatusNotFound : Nat := 404
def StatusInternalServerError : Nat := 500

/-- The call `http.Error(w, msg, code)`: plain text, the message followed by a
newline. -/
def httpError (msg : String) (code : Nat) : Response :=
  ⟨code, some "text/plain; charset=utf-8", .text (msg ++ "\n")⟩

/-- The pair `w.Header().Set("Content-Type", "application/json")`,
`json.NewEncoder(w).Encode(v)`: the first write sends status 200. -/
def writeJson (doc : JsonDoc) : Response :=
  ⟨StatusOK, some "application/json", .json doc⟩

/-- The call `w.WriteHeader(code)` with nothing written after it. -/
def writeHeader (code : Nat) : Response :=
  ⟨code, none, .empty⟩

/-- A handler run: the response, the `db` calls made (in order) and the
storage state left behind. -/
structure Outcome (σ : Type) where
  resp : Response
  calls : List Call
  store : σ

/-! ## The handlers -/

/-- The loop `for rows.Next()` of `getProducts`: scan, stop at the first scan
error, append otherwise. -/
def scanLoop : List Scanned → GoSlice → Res GoSlice
  | [], products => .ok products
  | .scanError err :: _, _ => .fail err
  | .row product :: rest, products => scanLoop rest (products.append product)

/-- The statement of `getProducts`. -/
def selectAllStmt : Stmt := ⟨.selectAll, []⟩

/-- The function `getProducts`.  The source never calls `rows.Err()` after the
loop, so the field `Rows.Err` is not read here. -/
def getProducts {σ : Type} (db : Driver σ) (s : σ) : Outcome σ :=
  match db.Query selectAllStmt s with
  | (.fail err, s1) =>
    ⟨httpError err.Error StatusInternalServerError, [.Query selectAllStmt], s1⟩
  | (.ok rows, s1) =>
    match scanLoop rows.items (.elems []) with
    | .fail err =>
      ⟨httpError err.Error StatusInternalServerError, [.Query selectAllStmt], s1⟩
    | .ok products =>
      ⟨writeJson (encodeSlice products), [.Query selectAllStmt], s1⟩

/-- The statement of `getProduct`. -/
def selectByIdStmt (id : Int) : Stmt := ⟨.selectById, [.int id]⟩

/-- The function `getProduct`; `idParam` is `mux.Vars(r)["id"]`. -/
def getProduct {σ : Type} (db : Driver σ) (idParam : String) (s : σ) : Outcome σ :=
  match Atoi idParam with
  | none => ⟨httpError "Invalid product ID" StatusBadRequest, [], s⟩
  | some id =>
    match db.QueryRow (selectByIdStmt id) s with
    | (.fail err, s1) =>
      if err = .ErrNoRows then
        ⟨httpError "Product not found" StatusNotFound, [.QueryRow (selectByIdStmt id)], s1⟩
      else
        ⟨httpError err.Error StatusInternalServerError, [.QueryRow (selectByIdStmt id)], s1⟩
    | (.ok product, s1) =>
      ⟨writeJson (.object product), [.QueryRow (selectByIdStmt id)], s1⟩

/-- The statement of `createProduct`. -/
def insertStmt (name : String) (price : Float64) (description : String) : Stmt :=
  ⟨.insertRow, [.str name, .float price, .str description]⟩

/-- The function `createProduct`; `decoded` is what
`json.NewDecoder(r.Body).Decode(&product)` makes of the body. -/
def createProduct {σ : Type} (db : Driver σ) (decoded : Res Product) (s : σ) : Outcome σ :=
  match decoded with
  | .fail err => ⟨httpError err.Error StatusBadRequest, [], s⟩
  | .ok product =>
    match db.Exec (insertStmt product.Name product.Price product.Description) s with
    | (.fail err, s1) =>
      ⟨httpError err.Error StatusInternalServerError,
        [.Exec (insertStmt product.Name product.Price product.Description)], s1⟩
    | (.ok result, s1) =>
      ⟨writeJson (.object ⟨result.LastInsertId.1, product.Name, product.Price,
          product.Description⟩),
        [.Exec (insertStmt product.Name product.Price product.Description)], s1⟩

/-- The statement of `updateProduct`. -/
def updateStmt (name : String) (price : Float64) (description : String) (id : Int) : Stmt :=
  ⟨.updateById, [.str name, .float price, .str description, .int id]⟩

/-- The function `updateProduct`. -/
def updateProduct {σ : Type} (db : Driver σ) (idParam : String) (decoded : Res Product)
    (s : σ) : Outcome σ :=
  match Atoi idParam with
  | none => ⟨httpError "Invalid product ID" StatusBadRequest, [], s⟩
  | some id =>
    match decoded with
    | .fail err => ⟨httpError err.Error StatusBadRequest, [], s⟩
    | .ok product =>
      match db.Exec (updateStmt product.Name product.Price product.Description id) s with
      | (.fail err, s1) =>
        ⟨httpError err.Error StatusInternalServerError,
          [.Exec (updateStmt product.Name product.Price product.Description id)], s1⟩
      | (.ok _, s1) =>
        ⟨writeJson (.object ⟨id, product.Name, product.Price, product.Description⟩),
          [.Exec (updateStmt product.Name product.Price product.Description id)], s1⟩

/-- The statement of `deleteProduct`. -/
def deleteStmt (id : Int) : Stmt := ⟨.deleteById, [.int id]⟩

/-- The function `deleteProduct`. -/
def deleteProduct {σ : Type} (db : Driver σ) (idParam : String) (s : σ) : Outcome σ :=
  match Atoi idParam with
  | none => ⟨httpError "Invalid product ID" StatusBadRequest, [], s⟩
  | some id =>
    match db.Exec (deleteStmt id) s with
    | (.fail err, s1) =>
      ⟨httpError err.Error StatusInternalServerError, [.Exec (deleteStmt id)], s1⟩
    | (.ok _, s1) => ⟨writeHeader StatusNoContent, [.Exec (deleteStmt id)], s1⟩

/-! ## A model table -/

/-- The `products` table: its rows in storage order and the next
auto-increment value. -/
structure Table where
  rows : List Product
  nextId : Int
deriving DecidableEq, Repr

/-- The row `UPDATE ... SET name = ?, price = ?, description = ? WHERE id = ?`
leaves in place of `r`. -/
def setFields (name : String) (price : Float64) (description : String) (id : Int)
    (r : Product) : Product :=
  if r.ID = id then ⟨r.ID, name, price, description⟩ else r

/-- The driver in which each of the five statements has its standard meaning
on a `Table`, and none of them fails; any other statement is an error that
leaves the table alone. -/
def tableDriver : Driver Table where
  Query stmt t :=
    match stmt.sql, stmt.args with
    | .selectAll, [] => (.ok ⟨t.rows.map .row, none⟩, t)
    | _, _ => (.fail (.other "unsupported statement"), t)
  QueryRow stmt t :=
    match stmt.sql, stmt.args with
    | .selectById, [.int id] =>
      match t.rows.find? (fun r => decide (r.ID = id)) with
      | some r => (.ok r, t)
      | none => (.fail .ErrNoRows, t)
    | _, _ => (.fail (.other "unsupported statement"), t)
  Exec stmt t :=
    match stmt.sql, stmt.args with
    | .insertRow, [.str name, .float price, .str description] =>
      (.ok ⟨(t.nextId, none), (1, none)⟩,
        ⟨t.rows ++ [⟨t.nextId, name, price, description⟩], t.nextId + 1⟩)
    | .updateById, [.str name, .float price, .str description, .int id] =>
      (.ok ⟨(0, none), (((t.rows.filter (fun r => decide (r.ID = id))).length : Int), none)⟩,
        ⟨t.rows.map (setFields name price description id), t.nextId⟩)
    | .deleteById, [.int id] =>
      (.ok ⟨(0, none), (((t.rows.filter (fun r => decide (r.ID = id))).length : Int), none)⟩,
        ⟨t.rows.filter (fun r => !decide (r.ID = id)), t.nextId⟩)
    | _, _ => (.fail (.other "unsupported statement"), t)

/-- A driver that answers every call from a fixed script and has no state. -/
def scriptedDriver (query : Res Rows) (queryRow : Res Product) (exec : Res Result) :
    Driver Unit where
  Query _ s := (query, s)
  QueryRow _ s := (queryRow, s)
  Exec _ s := (exec, s)

/-! ## Two readings of the id constraint -/

/-- The decimal text of a non-negative integer: one or more decimal digits
and nothing else. -/
def isNonNegativeDecimal (s : String) : Bool :=
  !s.toList.isEmpty && s.toList.all Char.isDigit

/-- The number a run of decimal digits denotes, continuing from `n`. -/
def decimalValue (ds : List Char) (n : Nat) : Nat :=
  ds.foldl (fun acc c => acc * 10 + (c.toNat - 48)) n

/-- The decimal text of a 64-bit integer: an optional `-` or `+`, then one or
more decimal digits denoting a value within `[-2^63, 2^63 - 1]`. -/
def isIntText (s : String) : Bool :=
  match s.toList with
  | [] => false
  | c :: cs =>
    let ds := if c = '-' ∨ c = '+' then cs else c :: cs
    !ds.isEmpty && ds.all Char.isDigit &&
      (if c = '-' then decide (decimalValue ds 0 ≤ 2 ^ 63)
        else decide (decimalValue ds 0 < 2 ^ 63))

/-! ## Sample data -/

/-- An empty table whose first assigned id will be 1. -/
def emptyTable : Table := ⟨[], 1⟩

/-- A table holding one product, id 1. -/
def oneRowTable : Table := ⟨[⟨1, "Test Product", ⟨999⟩, "This is a test product"⟩], 2⟩

/-- A request body as the update test sends it (no id, so `ID` is 0). -/
def sampleBody : Product := ⟨0, "Updated", ⟨2999⟩, "x"⟩

/-! ## Lemmas on strconv.Atoi -/

theorem digitVal_eq (c : Char) :
    digitVal c = if c.isDigit then some (c.toNat - 48) else none := by
  unfold digitVal Char.isDigit Char.toNat
  have h1 : (c.val ≥ 48) ↔ 48 ≤ c.val.toNat := by
    rw [ge_iff_le, UInt32.le_def]; rfl
  have h2 : (c.val ≤ 57) ↔ c.val.toNat ≤ 57 := by
    rw [UInt32.le_def]; rfl
  by_cases a : 48 ≤ c.val.toNat <;> by_cases b : c.val.toNat ≤ 57 <;> simp [a, b, h1, h2]

theorem parseDigits_eq (ds : List Char) (n : Nat) :
    parseDigits ds n = if ds.all Char.isDigit then some (decimalValue ds n) else none := by
  induction ds generalizing n with
  | nil => simp [parseDigits, decimalValue]
  | cons c cs ih =>
    simp only [parseDigits, digitVal_eq]
    by_cases hc : c.isDigit
    · simp [hc, ih, decimalValue]
    · simp [hc]

theorem parseUnsigned_eq (ds : List Char) :
    parseUnsigned ds
      = if (!ds.isEmpty && ds.all Char.isDigit) = true then some (decimalValue ds 0)
        else none := by
  cases ds with
  | nil => simp [parseUnsigned]
  | cons c cs => simp [parseUnsigned, parseDigits_eq]

/-- What `Atoi` accepts is exactly the decimal text of a 64-bit integer. -/
theorem Atoi_isSome_iff (s : String) : (∃ id, Atoi s = some id) ↔ isIntText s = true := by
  unfold isIntText Atoi
  cases hs : s.toList with
  | nil => simp
  | cons c cs =>
    simp only [parseUnsigned_eq]
    generalize (if c = '-' ∨ c = '+' then cs else c :: cs) = ds
    by_cases hd : (!ds.isEmpty && ds.all Char.isDigit) = true
    · by_cases hneg : c = '-'
      · by_cases hr : decimalValue ds 0 ≤ 9223372036854775808 <;> simp [hd, hneg, hr]
      · by_cases hr : decimalValue ds 0 < 9223372036854775808 <;> simp [hd, hneg, hr]
    · simp [hd]

theorem Atoi_none_of_not_intText (s : String) (h : isIntText s = false) :
    Atoi s = none := by
  cases ha : Atoi s with
  | none => rfl
  | some id =>
    have := (Atoi_isSome_iff s).1 ⟨id, ha⟩
    simp [h] at this

/-! ## Lemmas on the model table -/

theorem find_after_setFields (name : String) (price : Float64) (description : String)
    (id : Int) (rows : List Product) (h : ∃ r ∈ rows, r.ID = id) :
    (rows.map (setFields name price description id)).find? (fun r => decide (r.ID = id))
      = some ⟨id, name, price, description⟩ := by
  induction rows with
  | nil => simp at h
  | cons r rest ih =>
    by_cases hr : r.ID = id
    · simp [setFields, hr]
    · have hrest : ∃ q ∈ rest, q.ID = id := by
        rcases h with ⟨q, hq, hqid⟩
        rcases List.mem_cons.1 hq with rfl | hq2
        · exact absurd hqid hr
        · exact ⟨q, hq2, hqid⟩
      simp [setFields, hr, List.find?_cons]
      simpa [setFields] using ih hrest

theorem find_after_delete (id : Int) (rows : List Product) :
    (rows.filter (fun r => !decide (r.ID = id))).find? (fun r => decide (r.ID = id))
      = none := by
  simp [List.find?_eq_none]

/-! ## Lemmas on the handlers -/

theorem scanLoop_rows (ps : List Product) (acc : List Product) :
    scanLoop (ps.map .row) (.elems acc) = .ok (.elems (acc ++ ps)) := by
  induction ps generalizing acc with
  | nil => simp [scanLoop]
  | cons p rest ih => simp [scanLoop, GoSlice.append, ih]

/-- The two error paths `getProducts` does have: a failed query and a failed
scan are both answered `http.Error(w, err.Error(), 500)`. -/
theorem getProducts_500_on_query_or_scan_error {σ : Type} (db : Driver σ) (s s1 : σ)
    (err : GoError) (before : List Product) (after : List Scanned) (rowsErr : Option GoError) :
    (db.Query selectAllStmt s = (.fail err, s1) →
      (getProducts db s).resp = httpError err.Error 500) ∧
    (db.Query selectAllStmt s
        = (.ok ⟨before.map .row ++ .scanError err :: after, rowsErr⟩, s1) →
      (getProducts db s).resp = httpError err.Error 500) := by
  constructor
  · intro hq
    simp [getProducts, hq, StatusInternalServerError]
  · intro hq
    have hl : ∀ (ps acc : List Product),
        scanLoop (ps.map .row ++ .scanError err :: after) (.elems acc) = .fail err := by
      intro ps
      induction ps with
      | nil => intro acc; simp [scanLoop]
      | cons q rest ih => intro acc; simp [scanLoop, GoSlice.append, ih]
    simp [getProducts, hq, hl, StatusInternalServerError]

/-! ## The claims -/

/-- C1: a request whose input fails to parse is answered 400 and reaches no
storage call.  When `strconv.Atoi` rejects the id segment, `getProduct`,
`updateProduct` (whatever the body) and `deleteProduct` answer
`http.Error(w, "Invalid product ID", 400)`; when the body fails to decode,
`createProduct` and `updateProduct` (whatever the id segment) answer status
400; in each case no `db` call is made and the storage state is the one the
handler started from. -/
theorem parse_failure_400_no_storage {σ : Type} (db : Driver σ) (s : σ)
    (badId anyId : String) (anyBody : Res Product) (derr : GoError)
    (hbad : Atoi badId = none) :
    getProduct db badId s = ⟨httpError "Invalid product ID" 400, [], s⟩ ∧
    updateProduct db badId anyBody s = ⟨httpError "Invalid product ID" 400, [], s⟩ ∧
    deleteProduct db badId s = ⟨httpError "Invalid product ID" 400, [], s⟩ ∧
    createProduct db (.fail derr) s = ⟨httpError derr.Error 400, [], s⟩ ∧
    (updateProduct db anyId (.fail derr) s).resp.status = 400 ∧
    (updateProduct db anyId (.fail derr) s).calls = [] ∧
    (updateProduct db anyId (.fail derr) s).store = s := by
  refine ⟨?_, ?_, ?_, ?_, ?_, ?_, ?_⟩
  · simp [getProduct, hbad, StatusBadRequest]
  · simp [updateProduct, hbad, StatusBadRequest]
  · simp [deleteProduct, hbad, StatusBadRequest]
  · simp [createProduct, StatusBadRequest]
  all_goals
    unfold updateProduct
    cases Atoi anyId <;> simp [httpError, StatusBadRequest]

/-- C1 at a concrete request: the segment "abc" against the one-row table. -/
theorem parse_failure_400_no_storage_witness :
    Atoi "abc" = none ∧
    getProduct tableDriver "abc" oneRowTable
      = ⟨httpError "Invalid product ID" 400, [], oneRowTable⟩ ∧
    updateProduct tableDriver "abc" (.ok sampleBody) oneRowTable
      = ⟨httpError "Invalid product ID" 400, [], oneRowTable⟩ ∧
    deleteProduct tableDriver "abc" oneRowTable
      = ⟨httpError "Invalid product ID" 400, [], oneRowTable⟩ ∧
    createProduct tableDriver (.fail (.other "unexpected EOF")) oneRowTable
      = ⟨httpError "unexpected EOF" 400, [], oneRowTable⟩ ∧
    (updateProduct tableDriver "1" (.fail (.other "unexpected EOF")) oneRowTable).resp.status
      = 400 ∧
    (updateProduct tableDriver "1" (.fail (.other "unexpected EOF")) oneRowTable).calls = [] ∧
    (updateProduct tableDriver "1" (.fail (.other "unexpected EOF")) oneRowTable).store
      = oneRowTable :=
  ⟨rfl, parse_failure_400_no_storage tableDriver oneRowTable "abc" "1" (.ok sampleBody)
    (.other "unexpected EOF") rfl⟩

/-- C2: for an id segment that parses to an integer, `getProduct` answers
`http.Error(w, "Product not found", 404)` when the point lookup reports
`sql.ErrNoRows`, and `http.Error(w, err.Error(), 500)` for every other lookup
error; the status is 404 exactly when the lookup reported `sql.ErrNoRows`,
and then it is not 500. -/
theorem getProduct_not_found_exactly_on_no_rows {σ : Type} (db : Driver σ) (s : σ)
    (idParam : String) (id : Int) (hid : Atoi idParam = some id) :
    ((db.QueryRow (selectByIdStmt id) s).1 = .fail .ErrNoRows →
      (getProduct db idParam s).resp = httpError "Product not found" 404) ∧
    (∀ err : GoError, (db.QueryRow (selectByIdStmt id) s).1 = .fail err → err ≠ .ErrNoRows →
      (getProduct db idParam s).resp = httpError err.Error 500) ∧
    ((getProduct db idParam s).resp.status = 404 ↔
      (db.QueryRow (selectByIdStmt id) s).1 = .fail .ErrNoRows) ∧
    ((db.QueryRow (selectByIdStmt id) s).1 = .fail .ErrNoRows →
      (getProduct db idParam s).resp.status ≠ 500) := by
  unfold getProduct
  simp only [hid]
  rcases hq : db.QueryRow (selectByIdStmt id) s with ⟨r, s1⟩
  cases r with
  | ok product => simp [writeJson, StatusOK]
  | fail err =>
    by_cases he : err = .ErrNoRows
    · subst he
      simp [httpError, StatusNotFound]
    · simp [he, httpError, StatusInternalServerError, StatusNotFound]

/-- C2 at a concrete request: id 7 is looked up in the one-row table. -/
theorem getProduct_not_found_exactly_on_no_rows_witness :
    Atoi "7" = some 7 ∧
    (((tableDriver.QueryRow (selectByIdStmt 7) oneRowTable).1 = .fail .ErrNoRows →
      (getProduct tableDriver "7" oneRowTable).resp = httpError "Product not found" 404) ∧
    (∀ err : GoError, (tableDriver.QueryRow (selectByIdStmt 7) oneRowTable).1 = .fail err →
      err ≠ .ErrNoRows →
      (getProduct tableDriver "7" oneRowTable).resp = httpError err.Error 500) ∧
    ((getProduct tableDriver "7" oneRowTable).resp.status = 404 ↔
      (tableDriver.QueryRow (selectByIdStmt 7) oneRowTable).1 = .fail .ErrNoRows) ∧
    ((tableDriver.QueryRow (selectByIdStmt 7) oneRowTable).1 = .fail .ErrNoRows →
      (getProduct tableDriver "7" oneRowTable).resp.status ≠ 500)) :=
  ⟨rfl, getProduct_not_found_exactly_on_no_rows tableDriver oneRowTable "7" 7 rfl⟩

/-- C3, at the input where the code departs from it: the cursor delivers one
row and then stops with an error (`rows.Next()` returns false, `rows.Err()`
is "invalid connection").  `getProducts` never calls `rows.Err()`, so it
answers 200 with the one row it read instead of 500 with the error text. -/
theorem getProducts_answers_200_on_iteration_error :
    (getProducts
      (scriptedDriver
        (.ok ⟨[.row ⟨1, "Test Product", ⟨999⟩, "This is a test product"⟩],
          some (.other "invalid connection")⟩)
        (.fail .ErrNoRows) (.fail .ErrNoRows)) ()).resp
      = writeJson (.array [⟨1, "Test Product", ⟨999⟩, "This is a test product"⟩]) ∧
    (getProducts
      (scriptedDriver
        (.ok ⟨[.row ⟨1, "Test Product", ⟨999⟩, "This is a test product"⟩],
          some (.other "invalid connection")⟩)
        (.fail .ErrNoRows) (.fail .ErrNoRows)) ()).resp.status = 200 := by
  constructor <;> rfl

/-- C4: when storage returns the rows `ps` without error, `getProducts`
answers 200 with the JSON array of exactly `ps`, in storage order; for no
rows the body is the empty array, which is neither `null` nor an absent
body. -/
theorem getProducts_lists_rows_in_order {σ : Type} (db : Driver σ) (s s1 : σ)
    (ps : List Product)
    (hq : db.Query selectAllStmt s = (.ok ⟨ps.map .row, none⟩, s1)) :
    (getProducts db s).resp = ⟨200, some "application/json", .json (.array ps)⟩ ∧
    (ps = [] → (getProducts db s).resp.body = .json (.array []) ∧
      (getProducts db s).resp.body ≠ .json .null ∧
      (getProducts db s).resp.body ≠ .empty) := by
  have h : (getProducts db s).resp = ⟨200, some "application/json", .json (.array ps)⟩ := by
    have hl := scanLoop_rows ps []
    simp only [List.nil_append] at hl
    simp [getProducts, hq, hl, writeJson, encodeSlice, StatusOK]
  refine ⟨h, ?_⟩
  intro hps
  subst hps
  simp [h]

/-- C4 on the model table, once with no rows and once with one. -/
theorem getProducts_lists_rows_in_order_witness :
    ((getProducts tableDriver emptyTable).resp
        = ⟨200, some "application/json", .json (.array [])⟩ ∧
      (([] : List Product) = [] →
        (getProducts tableDriver emptyTable).resp.body = .json (.array []) ∧
        (getProducts tableDriver emptyTable).resp.body ≠ .json .null ∧
        (getProducts tableDriver emptyTable).resp.body ≠ .empty)) ∧
    (getProducts tableDriver oneRowTable).resp
      = ⟨200, some "application/json", .json (.array oneRowTable.rows)⟩ :=
  ⟨getProducts_lists_rows_in_order tableDriver emptyTable emptyTable [] rfl,
    (getProducts_lists_rows_in_order tableDriver oneRowTable oneRowTable oneRowTable.rows
      rfl).1⟩

/-- C5: for a body that decodes to `p`, `createProduct` makes one call, the
insert with arguments `(p.Name, p.Price, p.Description)`; the whole run is
the same whatever `p.ID` is; and when the insert succeeds the answer is 200
with the product whose id is the storage-assigned `LastInsertId` and whose
other fields are those of `p`. -/
theorem createProduct_inserts_body_fields {σ : Type} (db : Driver σ) (s s1 : σ)
    (p : Product) (res : Result)
    (hx : db.Exec (insertStmt p.Name p.Price p.Description) s = (.ok res, s1)) :
    (createProduct db (.ok p) s).calls
      = [.Exec ⟨.insertRow, [.str p.Name, .float p.Price, .str p.Description]⟩] ∧
    (∀ otherId : Int,
      createProduct db (.ok ⟨otherId, p.Name, p.Price, p.Description⟩) s
        = createProduct db (.ok p) s) ∧
    (createProduct db (.ok p) s).resp
      = ⟨200, some "application/json",
          .json (.object ⟨res.LastInsertId.1, p.Name, p.Price, p.Description⟩)⟩ ∧
    (createProduct db (.ok p) s).store = s1 := by
  refine ⟨?_, ?_, ?_, ?_⟩
  · simp only [createProduct, hx]
    rfl
  · intro otherId
    simp [createProduct]
  · simp [createProduct, hx, writeJson, StatusOK]
  · simp [createProduct, hx]

/-- C5 on the empty model table: the body carries id 42, the stored row and
the answer carry the assigned id 1. -/
theorem createProduct_inserts_body_fields_witness :
    tableDriver.Exec (insertStmt "Widget" ⟨999⟩ "d") emptyTable
      = (.ok ⟨(1, none), (1, none)⟩, ⟨[⟨1, "Widget", ⟨999⟩, "d"⟩], 2⟩) ∧
    (createProduct tableDriver (.ok ⟨42, "Widget", ⟨999⟩, "d"⟩) emptyTable).calls
      = [.Exec ⟨.insertRow, [.str "Widget", .float ⟨999⟩, .str "d"]⟩] ∧
    (∀ otherId : Int,
      createProduct tableDriver (.ok ⟨otherId, "Widget", ⟨999⟩, "d"⟩) emptyTable
        = createProduct tableDriver (.ok ⟨42, "Widget", ⟨999⟩, "d"⟩) emptyTable) ∧
    (createProduct tableDriver (.ok ⟨42, "Widget", ⟨999⟩, "d"⟩) emptyTable).resp
      = ⟨200, some "application/json", .json (.object ⟨1, "Widget", ⟨999⟩, "d"⟩)⟩ ∧
    (createProduct tableDriver (.ok ⟨42, "Widget", ⟨999⟩, "d"⟩) emptyTable).store
      = ⟨[⟨1, "Widget", ⟨999⟩, "d"⟩], 2⟩ :=
  ⟨rfl, createProduct_inserts_body_fields tableDriver emptyTable
    ⟨[⟨1, "Widget", ⟨999⟩, "d"⟩], 2⟩ ⟨42, "Widget", ⟨999⟩, "d"⟩ ⟨(1, none), (1, none)⟩ rfl⟩

/-- C6: for an id segment that parses to `id` and a body that decodes to `p`,
when the update statement does not error (whatever it reports as rows
affected) `updateProduct` answers 200 with the product whose id is `id`, not
`p.ID`, and whose other fields are those of `p`; the update is the only `db`
call it makes, so nothing checks that the row exists; and on no request at
all does `updateProduct` answer 404. -/
theorem updateProduct_echoes_path_id {σ : Type} (db : Driver σ) (s s1 : σ)
    (idParam : String) (id : Int) (p : Product) (res : Result)
    (hid : Atoi idParam = some id)
    (hx : db.Exec (updateStmt p.Name p.Price p.Description id) s = (.ok res, s1)) :
    (updateProduct db idParam (.ok p) s).resp
      = ⟨200, some "application/json", .json (.object ⟨id, p.Name, p.Price, p.Description⟩)⟩ ∧
    (updateProduct db idParam (.ok p) s).calls
      = [.Exec ⟨.updateById, [.str p.Name, .float p.Price, .str p.Description, .int id]⟩] ∧
    (∀ (db2 : Driver σ) (seg : String) (decoded : Res Product) (s2 : σ),
      (updateProduct db2 seg decoded s2).resp.status ≠ 404) := by
  refine ⟨?_, ?_, ?_⟩
  · simp [updateProduct, hid, hx, writeJson, StatusOK]
  · simp only [updateProduct, hid, hx]
    rfl
  · intro db2 seg decoded s2
    unfold updateProduct
    cases Atoi seg with
    | none => simp [httpError, StatusBadRequest]
    | some id2 =>
      cases decoded with
      | fail err => simp [httpError, StatusBadRequest]
      | ok q =>
        rcases hq : db2.Exec (updateStmt q.Name q.Price q.Description id2) s2 with ⟨r, s3⟩
        cases r <;> simp [hq, httpError, writeJson, StatusOK, StatusInternalServerError]

/-- C6 on the empty model table: no row has id 1, the update affects zero
rows, and the answer is still 200 with id 1 and the submitted fields. -/
theorem updateProduct_echoes_path_id_witness :
    Atoi "1" = some 1 ∧
    tableDriver.Exec (updateStmt "Updated" ⟨2999⟩ "x" 1) emptyTable
      = (.ok ⟨(0, none), (0, none)⟩, emptyTable) ∧
    (updateProduct tableDriver "1" (.ok ⟨5, "Updated", ⟨2999⟩, "x"⟩) emptyTable).resp
      = ⟨200, some "application/json", .json (.object ⟨1, "Updated", ⟨2999⟩, "x"⟩)⟩ ∧
    (updateProduct tableDriver "1" (.ok ⟨5, "Updated", ⟨2999⟩, "x"⟩) emptyTable).calls
      = [.Exec ⟨.updateById, [.str "Updated", .float ⟨2999⟩, .str "x", .int 1]⟩] ∧
    (∀ (db2 : Driver Table) (seg : String) (decoded : Res Product) (s2 : Table),
      (updateProduct db2 seg decoded s2).resp.status ≠ 404) :=
  ⟨rfl, rfl, updateProduct_echoes_path_id tableDriver emptyTable emptyTable "1" 1
    ⟨5, "Updated", ⟨2999⟩, "x"⟩ ⟨(0, none), (0, none)⟩ rfl rfl⟩

/-- C7: for an id segment that parses to `id`, `deleteProduct` answers 204
with an empty body when the delete statement does not error (whatever it
reports as rows affected), and `http.Error(w, err.Error(), 500)` when it
errors; the status is 500 exactly when the statement errored, and it is
never 404. -/
theorem deleteProduct_204_unless_storage_error {σ : Type} (db : Driver σ) (s : σ)
    (idParam : String) (id : Int) (hid : Atoi idParam = some id) :
    (∀ res : Result, (db.Exec (deleteStmt id) s).1 = .ok res →
      (deleteProduct db idParam s).resp = ⟨204, none, .empty⟩) ∧
    (∀ err : GoError, (db.Exec (deleteStmt id) s).1 = .fail err →
      (deleteProduct db idParam s).resp = httpError err.Error 500) ∧
    ((deleteProduct db idParam s).resp.status = 500 ↔
      ∃ err : GoError, (db.Exec (deleteStmt id) s).1 = .fail err) ∧
    (deleteProduct db idParam s).resp.status ≠ 404 ∧
    (deleteProduct db idParam s).calls = [.Exec ⟨.deleteById, [.int id]⟩] := by
  unfold deleteProduct
  simp only [hid]
  rcases hq : db.Exec (deleteStmt id) s with ⟨r, s1⟩
  cases r with
  | ok res => simp [writeHeader, StatusNoContent, deleteStmt]
  | fail err => simp [httpError, StatusInternalServerError, deleteStmt]

/-- C7 on the empty model table: deleting id 1, which no row has, answers 204
with an empty body. -/
theorem deleteProduct_204_unless_storage_error_witness :
    Atoi "1" = some 1 ∧
    (tableDriver.Exec (deleteStmt 1) emptyTable).1 = .ok ⟨(0, none), (0, none)⟩ ∧
    (deleteProduct tableDriver "1" emptyTable).resp = ⟨204, none, .empty⟩ :=
  ⟨rfl, rfl, (deleteProduct_204_unless_storage_error tableDriver emptyTable "1" 1 rfl).1
    ⟨(0, none), (0, none)⟩ rfl⟩

/-- C8 as stated fails at "-1": it is not the decimal text of a non-negative
integer, yet `getProduct` does not answer 400; it looks id -1 up in storage
and, on the empty table, answers 404. -/
theorem getProduct_looks_up_negative_id :
    isNonNegativeDecimal "-1" = false ∧
    (getProduct tableDriver "-1" emptyTable).calls = [.QueryRow ⟨.selectById, [.int (-1)]⟩] ∧
    (getProduct tableDriver "-1" emptyTable).resp = httpError "Product not found" 404 := by
  refine ⟨by decide, rfl, rfl⟩

/-- C8, amended: for every id segment that is not the decimal text of a
64-bit integer (an optional sign, then one or more digits), `getProduct`
answers `http.Error(w, "Invalid product ID", 400)`, makes no `db` call and
leaves the storage state as it was. -/
theorem getProduct_rejects_non_integer_text {σ : Type} (db : Driver σ) (s : σ)
    (idParam : String) (h : isIntText idParam = false) :
    getProduct db idParam s = ⟨httpError "Invalid product ID" 400, [], s⟩ := by
  have he := Atoi_none_of_not_intText idParam h
  simp [getProduct, he, StatusBadRequest]

/-- C8, amended, at the segment "abc" against the one-row table. -/
theorem getProduct_rejects_non_integer_text_witness :
    isIntText "abc" = false ∧
    getProduct tableDriver "abc" oneRowTable
      = ⟨httpError "Invalid product ID" 400, [], oneRowTable⟩ :=
  ⟨by decide, getProduct_rejects_non_integer_text tableDriver oneRowTable "abc" (by decide)⟩

/-- C9 as stated fails on the empty table: updating id 1 answers 200, and the
following fetch of id 1 answers 404, because the update touched no row. -/
theorem update_then_get_missing_row :
    (updateProduct tableDriver "1" (.ok sampleBody) emptyTable).resp.status = 200 ∧
    (getProduct tableDriver "1"
      (updateProduct tableDriver "1" (.ok sampleBody) emptyTable).store).resp
      = httpError "Product not found" 404 := by
  refine ⟨rfl, rfl⟩

/-- C9, amended: over the model table, for every table state that holds a row
with the given id and every body `p`, `updateProduct` answers 200 and a
following `getProduct` for the same id answers 200 with exactly that id and
the name, price and description of `p`. -/
theorem update_then_get_existing_row (t : Table) (idParam : String) (id : Int)
    (p : Product) (hid : Atoi idParam = some id) (hrow : ∃ r ∈ t.rows, r.ID = id) :
    (updateProduct tableDriver idParam (.ok p) t).resp.status = 200 ∧
    (getProduct tableDriver idParam (updateProduct tableDriver idParam (.ok p) t).store).resp
      = ⟨200, some "application/json",
          .json (.object ⟨id, p.Name, p.Price, p.Description⟩)⟩ := by
  have hfind := find_after_setFields p.Name p.Price p.Description id t.rows hrow
  simp [updateProduct, getProduct, hid, tableDriver, updateStmt, selectByIdStmt, hfind,
    writeJson, StatusOK]

/-- C9, amended, on the one-row table: id 1 is updated and fetched back. -/
theorem update_then_get_existing_row_witness :
    Atoi "1" = some 1 ∧
    (∃ r ∈ oneRowTable.rows, r.ID = 1) ∧
    (updateProduct tableDriver "1" (.ok sampleBody) oneRowTable).resp.status = 200 ∧
    (getProduct tableDriver "1"
      (updateProduct tableDriver "1" (.ok sampleBody) oneRowTable).store).resp
      = ⟨200, some "application/json", .json (.object ⟨1, "Updated", ⟨2999⟩, "x"⟩)⟩ :=
  ⟨rfl, ⟨_, List.mem_cons_self _ _, rfl⟩,
    update_then_get_existing_row oneRowTable "1" 1 sampleBody rfl
      ⟨_, List.mem_cons_self _ _, rfl⟩⟩

/-- C10: over the model table, for every table state and every id segment
that parses to an integer, `deleteProduct` answers 204 with an empty body and
a following `getProduct` for the same id answers
`http.Error(w, "Product not found", 404)`, whether or not the table held a
row with that id. -/
theorem delete_then_get_not_found (t : Table) (idParam : String) (id : Int)
    (hid : Atoi idParam = some id) :
    (deleteProduct tableDriver idParam t).resp = ⟨204, none, .empty⟩ ∧
    (getProduct tableDriver idParam (deleteProduct tableDriver idParam t).store).resp
      = httpError "Product not found" 404 := by
  have hfind := find_after_delete id t.rows
  simp [deleteProduct, getProduct, hid, tableDriver, deleteStmt, selectByIdStmt, hfind,
    writeHeader, StatusNoContent, StatusNotFound]

/-- C10 on the one-row table (the row exists) and on the empty table (it does
not). -/
theorem delete_then_get_not_found_witness :
    Atoi "1" = some 1 ∧
    ((deleteProduct tableDriver "1" oneRowTable).resp = ⟨204, none, .empty⟩ ∧
      (getProduct tableDriver "1" (deleteProduct tableDriver "1" oneRowTable).store).resp
        = httpError "Product not found" 404) ∧
    ((deleteProduct tableDriver "1" emptyTable).resp = ⟨204, none, .empty⟩ ∧
      (getProduct tableDriver "1" (deleteProduct tableDriver "1" emptyTable).store).resp
        = httpError "Product not found" 404) :=
  ⟨rfl, delete_then_get_not_found oneRowTable "1" 1 rfl,
    delete_then_get_not_found emptyTable "1" 1 rfl⟩

end GoMysqlApi
